import Mathlib

/-!
# Weather station observers (`main2.cpp`)

A shallow embedding of the observer pattern of `main2.cpp`: a `WeatherStation`
keeps a `forward_list` of `shared_ptr<ObserverInterface>` and calls `update` on
each of them whenever one of its three readings is written.

Conventions of the embedding.

* `double` is IEEE 754 binary64 with round-to-nearest, ties-to-even, every
  operation rounded on its own. A finite value is a sign, a significand `m` and
  an exponent `ex`, standing for `m * 2 ^ ex / 2 ^ 1074`.
* `std::to_string (double)` is `printf` with `%f`: six decimals, the exact binary
  value rounded to nearest, ties to even.
* Every object lives on the heap behind a `shared_ptr`, as in `main`, so that
  `shared_from_this ()` succeeds. A pointer is the identity of a live object of
  a known class; the `Heap` maps each identity to the current value of the
  object. Null pointers and subjects that are not a `WeatherStation` have no
  representation.
* `Heap.updates` is a ghost log: `update` appends the pointer it was invoked
  through, so that invocations can be counted.
* A method of a class is a function of `self`; a method that writes to `self`
  returns the new `self`.
* A driver is a list of `Call`s, run first to last on a station and a heap.
-/

namespace Stonks

/-! ## Binary64 numbers -/

/-- Least `i`, counted up from the start value, with `n < 2 ^ (2 ^ i)`. The
first argument bounds the search; `n` itself is always enough. -/
def log2Width (n : Nat) : Nat → Nat → Nat
  | 0, i => i
  | fuel + 1, i => if n < 1 <<< (1 <<< i) then i else log2Width n fuel (i + 1)

/-- Binary search for the highest set bit of `n` among the bits below
`acc + 2 ^ i`, given that `2 ^ acc ≤ n` or `acc = 0`. -/
def log2Search (n : Nat) : Nat → Nat → Nat
  | 0, acc => acc
  | i + 1, acc =>
    if 1 <<< (acc + 1 <<< i) ≤ n then log2Search n i (acc + 1 <<< i) else log2Search n i acc

/-- Floor of the binary logarithm of `n`, and 0 for `n = 0`. -/
def ilog2 (n : Nat) : Nat := log2Search n (log2Width n n 0) 0

/-- A C++ `double`. `finite neg m ex` is `(-1) ^ neg * m * 2 ^ ex / 2 ^ 1074`;
the values of the machine have `m < 2 ^ 53`, `ex ≤ 2045`, and `2 ^ 52 ≤ m`
unless `ex = 0`. -/
inductive Double where
  | finite (neg : Bool) (m : Nat) (ex : Nat)
  | inf (neg : Bool)
  | nan (neg : Bool)
  deriving DecidableEq

namespace Double

/-- Floor of the binary logarithm of `n / d` when `d ≤ n`, and 0 otherwise. -/
def floorLog2 (n d : Nat) : Nat :=
  if d <<< (ilog2 n - ilog2 d) ≤ n then ilog2 n - ilog2 d else ilog2 n - ilog2 d - 1

/-- Round-to-nearest, ties-to-even: the `double` nearest to
`(-1) ^ neg * (n / d) / 2 ^ 1074`, for `0 < d`. -/
def round (neg : Bool) (n d : Nat) : Double :=
  let ex := floorLog2 n d - 52
  let q := n / (d <<< ex)
  let r := n % (d <<< ex)
  let q1 := if d <<< ex < 2 * r ∨ (2 * r = d <<< ex ∧ q % 2 = 1) then q + 1 else q
  let ex1 := if q1 = 1 <<< 53 then ex + 1 else ex
  let m1 := if q1 = 1 <<< 53 then 1 <<< 52 else q1
  if 2045 < ex1 then inf neg else finite neg m1 ex1

/-- The decimal literal `digits * 10 ^ (-scale)` of the source text, such as
`0.95` for `lit 95 2`. -/
def lit (digits scale : Nat) : Double := round false (digits <<< 1074) (10 ^ scale)

/-- Conversion of a non-negative `int` to `double`, as in `pressure > 1`. -/
def ofNat (n : Nat) : Double := round false (n <<< 1074) 1

/-- The `*` of `double`. A NaN operand is passed on, the first one first; zero
times infinity is the default NaN of x86-64, whose sign bit is set. -/
def mul : Double → Double → Double
  | nan s, _ => nan s
  | _, nan s => nan s
  | inf s, inf t => inf (xor s t)
  | inf s, finite t m _ => if m = 0 then nan true else inf (xor s t)
  | finite s m _, inf t => if m = 0 then nan true else inf (xor s t)
  | finite s m1 e1, finite t m2 e2 =>
    round (xor s t) ((m1 <<< e1) * (m2 <<< e2)) (1 <<< 1074)

/-- The `+` of `double`. A NaN operand is passed on; of two NaN operands the
right-hand one, as in the sums of `main2.cpp` built with the default options of
g++ on x86-64 (the language leaves the choice open). The sum of two infinities
of opposite sign is the default NaN of x86-64. An exact zero sum is `+0` unless
both operands are negative. -/
def add : Double → Double → Double
  | _, nan t => nan t
  | nan s, _ => nan s
  | inf s, inf t => if s = t then inf s else nan true
  | inf s, finite _ _ _ => inf s
  | finite _ _ _, inf t => inf t
  | finite s m1 e1, finite t m2 e2 =>
    if s = t then round s (m1 <<< e1 + m2 <<< e2) 1
    else if m1 <<< e1 = m2 <<< e2 then finite false 0 0
    else if m2 <<< e2 < m1 <<< e1 then round s (m1 <<< e1 - m2 <<< e2) 1
    else round t (m2 <<< e2 - m1 <<< e1) 1

/-- The `>` of `double`: false as soon as one side is a NaN. -/
def gt : Double → Double → Bool
  | nan _, _ => false
  | _, nan _ => false
  | inf s, inf t => !s && t
  | inf s, finite _ _ _ => !s
  | finite _ _ _, inf t => t
  | finite false m1 e1, finite false m2 e2 => decide (m2 <<< e2 < m1 <<< e1)
  | finite false m1 e1, finite true m2 e2 => decide (0 < m1 <<< e1 ∨ 0 < m2 <<< e2)
  | finite true _ _, finite false _ _ => false
  | finite true m1 e1, finite true m2 e2 => decide (m1 <<< e1 < m2 <<< e2)

/-- The values a `double` of the machine takes: 53 bits of significand, and a
significand below `2 ^ 52` only at the least exponent. -/
def machine : Double → Bool
  | finite _ m ex => decide (m < 2 ^ 53 ∧ ex ≤ 2045 ∧ (ex = 0 ∨ 2 ^ 52 ≤ m))
  | _ => true

/-- Whether `x` is greater than the fraction `n / d`, both taken as real
numbers, for `0 < d`; false for a NaN. -/
def exceeds : Double → Nat → Nat → Bool
  | nan _, _, _ => false
  | inf s, _, _ => !s
  | finite true _ _, _, _ => false
  | finite false m ex, n, d => decide (n <<< 1074 < d * (m <<< ex))

/-- The function `std::to_string (double)`: `printf` with `%f`. The value times
`10 ^ 6` is rounded to an integer, ties to even, and printed with the point six
digits from the right. -/
def to_string : Double → String
  | nan s => if s then "-nan" else "nan"
  | inf s => if s then "-inf" else "inf"
  | finite s m ex =>
    let n := (m <<< ex) * 1000000
    let d := 1 <<< 1074
    let q := n / d
    let r := n % d
    let q1 := if d < 2 * r ∨ (2 * r = d ∧ q % 2 = 1) then q + 1 else q
    let frac := toString (q1 % 1000000)
    (if s then "-" else "") ++ toString (q1 / 1000000) ++ "." ++
      String.mk (List.replicate (6 - frac.length) '0') ++ frac

end Double

/-! ## Objects -/

/-- A `shared_ptr<ObserverInterface>`: the class of the object pointed to and
its identity among the objects of that class. -/
inductive ObserverPtr where
  | statistics (a : Nat)
  | current (a : Nat)
  | forecast (a : Nat)
  deriving DecidableEq

/-- The data of `class SubjectInterface`; a `forward_list` is a list whose head
is the front. -/
structure SubjectInterface where
  observers : List ObserverPtr := []
  deriving DecidableEq

/-- The data of `class WeatherStation`. -/
structure WeatherStation extends SubjectInterface where
  humidity : Double := Double.ofNat 0
  temperature : Double := Double.ofNat 0
  pressure : Double := Double.ofNat 0
  deriving DecidableEq

/-- The data of `class StatisticsObserver`. -/
structure StatisticsObserver where
  statistics : String := ""
  deriving DecidableEq

/-- The data of `class CurrentObserver`. -/
structure CurrentObserver where
  current : String := ""
  deriving DecidableEq

/-- The data of `class ForecastObserver`. -/
structure ForecastObserver where
  forecast : String := ""
  deriving DecidableEq

/-- The observer objects, by class and identity, and the ghost log of the
`update` invocations made so far, oldest first. -/
structure Heap where
  statistics : Nat → StatisticsObserver
  current : Nat → CurrentObserver
  forecast : Nat → ForecastObserver
  updates : List ObserverPtr

/-- The data of `class DisplayDevice`: its three typed pointers. -/
structure DisplayDevice where
  statistics_obs : Nat
  current_obs : Nat
  forecast_obs : Nat
  deriving DecidableEq

/-! ## `SubjectInterface` -/

/-- The method `SubjectInterface::registerObserver`: `push_front`. -/
def SubjectInterface.registerObserver (self : SubjectInterface) (obs : ObserverPtr) :
    SubjectInterface :=
  { self with observers := obs :: self.observers }

/-- The method `SubjectInterface::removeObserver`: `forward_list::remove` drops
every element equal to `obs`. -/
def SubjectInterface.removeObserver (self : SubjectInterface) (obs : ObserverPtr) :
    SubjectInterface :=
  { self with observers := self.observers.filter (fun o => o != obs) }

/-! ## `WeatherStation` -/

namespace WeatherStation

/-- The getter `getHumidity`. -/
def getHumidity (self : WeatherStation) : Double := self.humidity

/-- The getter `getTemperature`. -/
def getTemperature (self : WeatherStation) : Double := self.temperature

/-- The getter `getPressure`. -/
def getPressure (self : WeatherStation) : Double := self.pressure

/-- The inherited `registerObserver`. -/
def registerObserver (self : WeatherStation) (obs : ObserverPtr) : WeatherStation :=
  { self with toSubjectInterface := self.toSubjectInterface.registerObserver obs }

/-- The inherited `registerMultipleObserver`: the range-for loop over `obs_vec`. -/
def registerMultipleObserver (self : WeatherStation) (obs_vec : List ObserverPtr) :
    WeatherStation :=
  obs_vec.foldl (fun s obs => s.registerObserver obs) self

/-- The inherited `removeObserver`. -/
def removeObserver (self : WeatherStation) (obs : ObserverPtr) : WeatherStation :=
  { self with toSubjectInterface := self.toSubjectInterface.removeObserver obs }

/-- The inherited `removeMultipleObserver`: the range-for loop over `obs_vec`. -/
def removeMultipleObserver (self : WeatherStation) (obs_vec : List ObserverPtr) :
    WeatherStation :=
  obs_vec.foldl (fun s obs => s.removeObserver obs) self

end WeatherStation

/-! ## The observers -/

/-- The method `StatisticsObserver::update`. -/
def StatisticsObserver.update (_self : StatisticsObserver) (ws : WeatherStation) :
    StatisticsObserver :=
  { statistics := "Hum:" ++ Double.to_string ws.getHumidity ++ "\nTemp:" ++
      Double.to_string ws.getTemperature ++ "\nPres:" ++ Double.to_string ws.getPressure }

/-- The getter `getStatistics`. -/
def StatisticsObserver.getStatistics (self : StatisticsObserver) : String := self.statistics

/-- The method `CurrentObserver::update`. -/
def CurrentObserver.update (_self : CurrentObserver) (ws : WeatherStation) : CurrentObserver :=
  { current := Double.to_string
      (Double.add (Double.add (Double.mul ws.getPressure (Double.lit 8 1))
        (Double.mul ws.getHumidity (Double.lit 1 1)))
        (Double.mul ws.getTemperature (Double.lit 1 1))) }

/-- The getter `getCurrent`. -/
def CurrentObserver.getCurrent (self : CurrentObserver) : String := self.current

/-- The method `ForecastObserver::update`. -/
def ForecastObserver.update (_self : ForecastObserver) (ws : WeatherStation) : ForecastObserver :=
  if Double.gt ws.getHumidity (Double.lit 95 2) && Double.gt ws.getPressure (Double.ofNat 1) then
    { forecast := "Lluvia" }
  else
    { forecast := "Libre" }

/-- The getter `getForecast`. -/
def ForecastObserver.getForecast (self : ForecastObserver) : String := self.forecast

/-- The virtual call `obs->update (s)`: the `update` of the class of the object
behind `obs` runs on that object, and the invocation is logged. -/
def ObserverPtr.update (obs : ObserverPtr) (s : WeatherStation) (h : Heap) : Heap :=
  match obs with
  | .statistics a =>
    { h with statistics := Function.update h.statistics a ((h.statistics a).update s),
             updates := h.updates ++ [obs] }
  | .current a =>
    { h with current := Function.update h.current a ((h.current a).update s),
             updates := h.updates ++ [obs] }
  | .forecast a =>
    { h with forecast := Function.update h.forecast a ((h.forecast a).update s),
             updates := h.updates ++ [obs] }

/-- The text an observer holds, read through the getter of its class. -/
def Heap.derived (h : Heap) : ObserverPtr → String
  | .statistics a => (h.statistics a).getStatistics
  | .current a => (h.current a).getCurrent
  | .forecast a => (h.forecast a).getForecast

/-- The text the `update` of the class of `obs` computes from the station `s`. -/
def ObserverPtr.rule (obs : ObserverPtr) (s : WeatherStation) : String :=
  match obs with
  | .statistics _ => (StatisticsObserver.update {} s).getStatistics
  | .current _ => (CurrentObserver.update {} s).getCurrent
  | .forecast _ => (ForecastObserver.update {} s).getForecast

/-! ## Notification and the setters -/

namespace WeatherStation

/-- The inherited `notifyObserver`: the range-for loop over `observers`, front
first, each `update` receiving this station. -/
def notifyObserver (self : WeatherStation) (h : Heap) : Heap :=
  self.observers.foldl (fun h obs => obs.update self h) h

/-- The setter `setHumidity`: write, then notify. -/
def setHumidity (self : WeatherStation) (v : Double) (h : Heap) : WeatherStation × Heap :=
  ({ self with humidity := v }, notifyObserver { self with humidity := v } h)

/-- The setter `setTemperature`: write, then notify. -/
def setTemperature (self : WeatherStation) (v : Double) (h : Heap) : WeatherStation × Heap :=
  ({ self with temperature := v }, notifyObserver { self with temperature := v } h)

/-- The setter `setPressure`: write, then notify. -/
def setPressure (self : WeatherStation) (v : Double) (h : Heap) : WeatherStation × Heap :=
  ({ self with pressure := v }, notifyObserver { self with pressure := v } h)

end WeatherStation

/-! ## `DisplayDevice` and the driver -/

namespace DisplayDevice

/-- The method `getObserverList`: the three members, each converted to a
`shared_ptr<ObserverInterface>` to the same object. -/
def getObserverList (self : DisplayDevice) : List ObserverPtr :=
  [.statistics self.statistics_obs, .current self.current_obs, .forecast self.forecast_obs]

/-- The method `showDisplay`, as the text it sends to `cout`. -/
def showDisplay (self : DisplayDevice) (h : Heap) : String :=
  "STATISTICS:\n" ++ (h.statistics self.statistics_obs).getStatistics ++ "\n" ++
  "CURRENT:\n" ++ (h.current self.current_obs).getCurrent ++ "\n" ++
  "FORECAST:\n" ++ (h.forecast self.forecast_obs).getForecast ++ "\n"

end DisplayDevice

/-- The heap in which every observer is as its constructor leaves it and no
`update` has run. -/
def Heap.fresh : Heap :=
  { statistics := fun _ => {}, current := fun _ => {}, forecast := fun _ => {}, updates := [] }

/-- The function `main`, from the two devices `make_shared` returns and the heap
they live in: the station and the heap at `return 0`, and the text sent to
`cout`. -/
def main (d1 d2 : DisplayDevice) (h0 : Heap) : WeatherStation × Heap × String :=
  let ws : WeatherStation := {}
  let ws := ws.registerMultipleObserver d1.getObserverList
  let ws := ws.registerMultipleObserver d2.getObserverList
  let r1 := ws.setHumidity (Double.lit 90 2) h0
  let r2 := r1.1.setPressure (Double.ofNat 2) r1.2
  let r3 := r2.1.setTemperature (Double.ofNat 10) r2.2
  let ws := r3.1.removeMultipleObserver d1.getObserverList
  let r4 := ws.setHumidity (Double.lit 99 2) r3.2
  (r4.1, r4.2,
    "TEST POINT 1\n" ++ "TEST POINT 2\n" ++ "TEST POINT 3\n" ++ "DEVICE 1\n" ++
    d1.showDisplay r4.2 ++ "--------\n" ++ "DEVICE 2" ++ d2.showDisplay r4.2 ++ "--------\n")

/-- The specification of bulk registration: `registerObserver` is called for
the first element of the list, then for the second, and so on to the last. -/
def registerObserverEach : WeatherStation → List ObserverPtr → WeatherStation
  | ws, [] => ws
  | ws, o :: os => registerObserverEach (ws.registerObserver o) os

/-- The specification of bulk removal: `removeObserver` is called for the first
element of the list, then for the second, and so on to the last. -/
def removeObserverEach : WeatherStation → List ObserverPtr → WeatherStation
  | ws, [] => ws
  | ws, o :: os => removeObserverEach (ws.removeObserver o) os

/-! ## Sequences of calls -/

/-- A call of a public method of a station, as a driver makes it. -/
inductive Call where
  | registerObserver (obs : ObserverPtr)
  | registerMultipleObserver (obs_vec : List ObserverPtr)
  | removeObserver (obs : ObserverPtr)
  | removeMultipleObserver (obs_vec : List ObserverPtr)
  | notifyObserver
  | setHumidity (v : Double)
  | setTemperature (v : Double)
  | setPressure (v : Double)

/-- The station and the heap when the call returns. The four calls that
register or remove run on the station alone; `notifyObserver` runs on the heap
and reads the station. -/
def Call.run (c : Call) (s : WeatherStation × Heap) : WeatherStation × Heap :=
  match c with
  | .registerObserver obs => (s.1.registerObserver obs, s.2)
  | .registerMultipleObserver obs_vec => (s.1.registerMultipleObserver obs_vec, s.2)
  | .removeObserver obs => (s.1.removeObserver obs, s.2)
  | .removeMultipleObserver obs_vec => (s.1.removeMultipleObserver obs_vec, s.2)
  | .notifyObserver => (s.1, s.1.notifyObserver s.2)
  | .setHumidity v => s.1.setHumidity v s.2
  | .setTemperature v => s.1.setTemperature v s.2
  | .setPressure v => s.1.setPressure v s.2

/-- The station and the heap after the calls of the list, made first to last. -/
def runCalls (cs : List Call) (s : WeatherStation × Heap) : WeatherStation × Heap :=
  cs.foldl (fun s c => c.run s) s

/-- Whether the call is one of the four that register or remove observers. -/
def Call.registersOrRemoves : Call → Bool
  | .registerObserver _ => true
  | .registerMultipleObserver _ => true
  | .removeObserver _ => true
  | .removeMultipleObserver _ => true
  | .notifyObserver => false
  | .setHumidity _ => false
  | .setTemperature _ => false
  | .setPressure _ => false

/-- The registrations in force after the calls of the list, oldest first,
starting from the registrations `reg`: a registration is recorded at the end, a
removal of `x` withdraws every registration of `x`, and no other call changes
the record. -/
def registrationOrder : List ObserverPtr → List Call → List ObserverPtr
  | reg, [] => reg
  | reg, .registerObserver x :: cs => registrationOrder (reg ++ [x]) cs
  | reg, .registerMultipleObserver l :: cs => registrationOrder (reg ++ l) cs
  | reg, .removeObserver x :: cs => registrationOrder (reg.filter (fun o => o != x)) cs
  | reg, .removeMultipleObserver l :: cs =>
    registrationOrder (reg.filter (fun o => decide (o ∉ l))) cs
  | reg, .notifyObserver :: cs => registrationOrder reg cs
  | reg, .setHumidity _ :: cs => registrationOrder reg cs
  | reg, .setTemperature _ :: cs => registrationOrder reg cs
  | reg, .setPressure _ :: cs => registrationOrder reg cs

/-! ## Lemmas on the subject operations -/

theorem registerObserver_observers (ws : WeatherStation) (x : ObserverPtr) :
    (ws.registerObserver x).observers = x :: ws.observers := rfl

theorem removeObserver_observers (ws : WeatherStation) (x : ObserverPtr) :
    (ws.removeObserver x).observers = ws.observers.filter (fun o => o != x) := rfl

theorem registerMultipleObserver_eq (l : List ObserverPtr) (ws : WeatherStation) :
    ws.registerMultipleObserver l = { ws with observers := l.reverse ++ ws.observers } := by
  induction l generalizing ws with
  | nil => rfl
  | cons o os ih =>
    have step : (ws.registerMultipleObserver (o :: os)) =
        (ws.registerObserver o).registerMultipleObserver os := rfl
    rw [step, ih]
    simp [WeatherStation.registerObserver, SubjectInterface.registerObserver]

theorem registerMultipleObserver_observers (l : List ObserverPtr) (ws : WeatherStation) :
    (ws.registerMultipleObserver l).observers = l.reverse ++ ws.observers := by
  rw [registerMultipleObserver_eq]

theorem removeMultipleObserver_eq (l : List ObserverPtr) (ws : WeatherStation) :
    ws.removeMultipleObserver l =
      { ws with observers := ws.observers.filter (fun o => decide (o ∉ l)) } := by
  induction l generalizing ws with
  | nil => simp [WeatherStation.removeMultipleObserver]
  | cons x xs ih =>
    have step : (ws.removeMultipleObserver (x :: xs)) =
        (ws.removeObserver x).removeMultipleObserver xs := rfl
    rw [step, ih]
    simp only [WeatherStation.removeObserver, SubjectInterface.removeObserver, List.filter_filter]
    congr 2
    apply List.filter_congr
    intro o _
    by_cases hx : o = x <;> by_cases hxs : o ∈ xs <;> simp [hx, hxs]

theorem removeMultipleObserver_observers (l : List ObserverPtr) (ws : WeatherStation) :
    (ws.removeMultipleObserver l).observers = ws.observers.filter (fun o => decide (o ∉ l)) := by
  rw [removeMultipleObserver_eq]

/-! ## Lemmas on notification -/

theorem update_updates (obs : ObserverPtr) (s : WeatherStation) (h : Heap) :
    (obs.update s h).updates = h.updates ++ [obs] := by
  cases obs <;> rfl

theorem update_derived_self (obs : ObserverPtr) (s : WeatherStation) (h : Heap) :
    (obs.update s h).derived obs = obs.rule s := by
  cases obs <;>
    simp [ObserverPtr.update, Heap.derived, ObserverPtr.rule, StatisticsObserver.update,
      CurrentObserver.update, ForecastObserver.update]

theorem update_derived_other (obs o : ObserverPtr) (s : WeatherStation) (h : Heap)
    (hne : o ≠ obs) : (obs.update s h).derived o = h.derived o := by
  cases obs <;> cases o <;> simp [ObserverPtr.update, Heap.derived] <;>
    (rw [Function.update_noteq]; intro heq; exact hne (by rw [heq]))

theorem notify_updates (l : List ObserverPtr) (s : WeatherStation) (h : Heap) :
    (l.foldl (fun h obs => obs.update s h) h).updates = h.updates ++ l := by
  induction l generalizing h with
  | nil => simp
  | cons o os ih => simp [List.foldl_cons, ih, update_updates]

theorem notify_derived_not_mem (l : List ObserverPtr) (s : WeatherStation) (h : Heap)
    (x : ObserverPtr) (hx : x ∉ l) :
    (l.foldl (fun h obs => obs.update s h) h).derived x = h.derived x := by
  induction l generalizing h with
  | nil => rfl
  | cons o os ih =>
    have hne : x ≠ o := fun e => hx (by simp [e])
    have hos : x ∉ os := fun m => hx (by simp [m])
    rw [List.foldl_cons, ih _ hos, update_derived_other o x s h hne]

theorem notify_derived_mem (l : List ObserverPtr) (s : WeatherStation) (h : Heap)
    (x : ObserverPtr) (hx : x ∈ l) :
    (l.foldl (fun h obs => obs.update s h) h).derived x = x.rule s := by
  induction l generalizing h with
  | nil => simp at hx
  | cons o os ih =>
    rw [List.foldl_cons]
    by_cases hos : x ∈ os
    · exact ih _ hos
    · have hxo : x = o := by
        rcases List.mem_cons.mp hx with e | m
        · exact e
        · exact absurd m hos
      rw [notify_derived_not_mem os s _ x hos, hxo, update_derived_self]

/-! ## Values of the literals of the source and of the driver -/

theorem gt_090_095 : Double.gt (Double.lit 90 2) (Double.lit 95 2) = false := by decide

theorem gt_099_095 : Double.gt (Double.lit 99 2) (Double.lit 95 2) = true := by decide

theorem gt_096_095 : Double.gt (Double.lit 96 2) (Double.lit 95 2) = true := by decide

theorem gt_2_1 : Double.gt (Double.ofNat 2) (Double.ofNat 1) = true := by decide

theorem gt_05_1 : Double.gt (Double.lit 5 1) (Double.ofNat 1) = false := by decide

theorem gt_10_1 : Double.gt (Double.lit 10 1) (Double.ofNat 1) = false := by decide

theorem to_string_090 : Double.to_string (Double.lit 90 2) = "0.900000" := by decide

theorem to_string_099 : Double.to_string (Double.lit 99 2) = "0.990000" := by decide

theorem to_string_10 : Double.to_string (Double.ofNat 10) = "10.000000" := by decide

theorem to_string_2 : Double.to_string (Double.ofNat 2) = "2.000000" := by decide

theorem current_090_2_10 :
    Double.to_string
      (Double.add (Double.add (Double.mul (Double.ofNat 2) (Double.lit 8 1))
        (Double.mul (Double.lit 90 2) (Double.lit 1 1)))
        (Double.mul (Double.ofNat 10) (Double.lit 1 1))) = "2.690000" := by decide

theorem current_099_2_10 :
    Double.to_string
      (Double.add (Double.add (Double.mul (Double.ofNat 2) (Double.lit 8 1))
        (Double.mul (Double.lit 99 2) (Double.lit 1 1)))
        (Double.mul (Double.ofNat 10) (Double.lit 1 1))) = "2.699000" := by decide

theorem lit_095 : Double.lit 95 2 = .finite false 8556839292003942 1021 := by decide
theorem ofNat_1 : Double.ofNat 1 = .finite false 4503599627370496 1022 := by decide

set_option exponentiation.threshold 2048 in
theorem shiftLeft_1074 (n : ℕ) : n <<< 1074 = n * 2 ^ 53 * 2 ^ 1021 := by
  rw [show (1074 : ℕ) = 53 + 1021 from rfl, Nat.shiftLeft_add, Nat.shiftLeft_eq,
    Nat.shiftLeft_eq]

set_option exponentiation.threshold 2048 in
theorem gt_lit095_iff (x : Double) (hx : x.machine = true) :
    Double.gt x (Double.lit 95 2) = true ↔ x.exceeds 95 100 = true := by
  rw [lit_095]
  cases x with
  | nan s => simp [Double.gt, Double.exceeds]
  | inf s => simp [Double.gt, Double.exceeds]
  | finite s m ex =>
    cases s with
    | true => simp [Double.gt, Double.exceeds]
    | false =>
      have hm : m < 9007199254740992 := by
        simp only [Double.machine, decide_eq_true_eq] at hx
        exact hx.1
      simp only [Double.gt, Double.exceeds, decide_eq_true_eq]
      rw [shiftLeft_1074, Nat.shiftLeft_eq, Nat.shiftLeft_eq,
        show (2 : ℕ) ^ 53 = 9007199254740992 from by norm_num]
      by_cases h : 1021 ≤ ex
      · obtain ⟨k, rfl⟩ : ∃ k, ex = 1021 + k := ⟨ex - 1021, by omega⟩
        have hP : 0 < (2 : ℕ) ^ 1021 := Nat.two_pow_pos 1021
        rw [pow_add]
        generalize (2 : ℕ) ^ 1021 = P at hP ⊢
        generalize (2 : ℕ) ^ k = K
        have e1 : m * (P * K) = (m * K) * P := by ring
        have e2 : 95 * 9007199254740992 * P = 855683929200394240 * P := by ring
        have e3 : 100 * (m * K * P) = (100 * (m * K)) * P := by ring
        rw [e1, e2, e3, Nat.mul_lt_mul_right hP, Nat.mul_lt_mul_right hP]
        generalize m * K = y
        omega
      · obtain ⟨j, hj⟩ : ∃ j, 1021 = ex + (j + 1) := ⟨1020 - ex, by omega⟩
        have hQ : 0 < (2 : ℕ) ^ ex := Nat.two_pow_pos ex
        have hR : 0 < (2 : ℕ) ^ j := Nat.two_pow_pos j
        have hsplit : (2 : ℕ) ^ 1021 = 2 ^ ex * (2 ^ j * 2) := by
          rw [hj, pow_add, pow_succ]
        rw [hsplit]
        generalize (2 : ℕ) ^ ex = Q at hQ ⊢
        generalize (2 : ℕ) ^ j = R at hR ⊢
        have e1 : 8556839292003942 * (Q * (R * 2)) = (17113678584007884 * R) * Q := by ring
        have e2 : 95 * 9007199254740992 * (Q * (R * 2)) = (1711367858400788480 * R) * Q := by
          ring
        have e3 : 100 * (m * Q) = (100 * m) * Q := by ring
        rw [e1, e2, e3, Nat.mul_lt_mul_right hQ, Nat.mul_lt_mul_right hQ]
        omega

set_option exponentiation.threshold 2048 in
theorem gt_one_iff (x : Double) :
    Double.gt x (Double.ofNat 1) = true ↔ x.exceeds 1 1 = true := by
  rw [ofNat_1]
  cases x with
  | nan s => simp [Double.gt, Double.exceeds]
  | inf s => simp [Double.gt, Double.exceeds]
  | finite s m ex =>
    cases s with
    | true => simp [Double.gt, Double.exceeds]
    | false =>
      simp only [Double.gt, Double.exceeds, decide_eq_true_eq]
      rw [shiftLeft_1074, Nat.shiftLeft_eq, Nat.shiftLeft_eq, Nat.one_mul, Nat.one_mul,
        show (1022 : ℕ) = 1 + 1021 from rfl, pow_add, ← Nat.mul_assoc,
        show (2 : ℕ) ^ 53 = 4503599627370496 * 2 ^ 1 from by norm_num]

theorem to_string_169 : Double.to_string (Double.lit 169 2) = "1.690000" := by decide

theorem lit_08 : Double.lit 8 1 = .finite false 7205759403792794 1021 := by decide

theorem lit_01 : Double.lit 1 1 = .finite false 7205759403792794 1018 := by decide

theorem lit_090 : Double.lit 90 2 = .finite false 8106479329266893 1021 := by decide

theorem mul_2_08 :
    Double.mul (Double.ofNat 2) (Double.lit 8 1) = .finite false 7205759403792794 1022 := by
  decide

theorem mul_090_01 :
    Double.mul (Double.lit 90 2) (Double.lit 1 1) = .finite false 6485183463413515 1018 := by
  decide

theorem mul_10_01 :
    Double.mul (Double.ofNat 10) (Double.lit 1 1) = .finite false 4503599627370496 1022 := by
  decide

theorem current_value_090_2_10 :
    Double.add (Double.add (Double.mul (Double.ofNat 2) (Double.lit 8 1))
        (Double.mul (Double.lit 90 2) (Double.lit 1 1)))
        (Double.mul (Double.ofNat 10) (Double.lit 1 1)) =
      .finite false 6057341498813318 1023 := by
  decide

/-! ## Values at a large pressure and at NaN readings -/

theorem current_value_large :
    Double.add (Double.add (Double.mul (Double.ofNat 100000000001) (Double.lit 8 1))
        (Double.mul (Double.ofNat 0) (Double.lit 1 1)))
        (Double.mul (Double.ofNat 0) (Double.lit 1 1)) =
      .finite false 5242880000052429 1058 := by
  decide

theorem to_string_large :
    Double.to_string (.finite false 5242880000052429 1058) = "80000000000.800003" := by
  decide

theorem current_nan_h_pos_p_neg :
    Double.to_string
      (Double.add (Double.add (Double.mul (.nan true) (Double.lit 8 1))
        (Double.mul (.nan false) (Double.lit 1 1)))
        (Double.mul (Double.ofNat 0) (Double.lit 1 1))) = "nan" := by decide

theorem current_nan_h_neg_p_pos :
    Double.to_string
      (Double.add (Double.add (Double.mul (.nan false) (Double.lit 8 1))
        (Double.mul (.nan true) (Double.lit 1 1)))
        (Double.mul (Double.ofNat 0) (Double.lit 1 1))) = "-nan" := by decide

theorem current_nan_t_neg_p_pos :
    Double.to_string
      (Double.add (Double.add (Double.mul (.nan false) (Double.lit 8 1))
        (Double.mul (Double.ofNat 0) (Double.lit 1 1)))
        (Double.mul (.nan true) (Double.lit 1 1))) = "-nan" := by decide

theorem current_nan_t_pos_p_neg :
    Double.to_string
      (Double.add (Double.add (Double.mul (.nan true) (Double.lit 8 1))
        (Double.mul (Double.ofNat 0) (Double.lit 1 1)))
        (Double.mul (.nan false) (Double.lit 1 1))) = "nan" := by decide

/-! ## Lemmas on sequences of calls -/

theorem Call_run_observers (c : Call) (s : WeatherStation × Heap) :
    (c.run s).1.observers.reverse = registrationOrder s.1.observers.reverse [c] := by
  cases c with
  | registerObserver x => simp [Call.run, registrationOrder, registerObserver_observers]
  | registerMultipleObserver l =>
    simp [Call.run, registrationOrder, registerMultipleObserver_observers]
  | removeObserver x =>
    simp [Call.run, registrationOrder, removeObserver_observers, List.filter_reverse]
  | removeMultipleObserver l =>
    simp [Call.run, registrationOrder, removeMultipleObserver_observers, List.filter_reverse]
  | notifyObserver => rfl
  | setHumidity v => rfl
  | setTemperature v => rfl
  | setPressure v => rfl

theorem registrationOrder_cons (reg : List ObserverPtr) (c : Call) (cs : List Call) :
    registrationOrder reg (c :: cs) = registrationOrder (registrationOrder reg [c]) cs := by
  cases c <;> rfl

theorem registrationOrder_filter (cs : List Call) (reg : List ObserverPtr) :
    registrationOrder reg (cs.filter Call.registersOrRemoves) = registrationOrder reg cs := by
  induction cs generalizing reg with
  | nil => rfl
  | cons c cs ih =>
    cases c <;> simp [List.filter, Call.registersOrRemoves, registrationOrder, ih]

theorem runCalls_observers (cs : List Call) (s : WeatherStation × Heap) :
    (runCalls cs s).1.observers.reverse = registrationOrder s.1.observers.reverse cs := by
  induction cs generalizing s with
  | nil => rfl
  | cons c cs ih =>
    have step : runCalls (c :: cs) s = runCalls cs (c.run s) := rfl
    rw [step, ih, Call_run_observers, ← registrationOrder_cons]

theorem runCalls_fresh_observers (cs : List Call) (h0 : Heap) :
    (runCalls cs ({}, h0)).1.observers = (registrationOrder [] cs).reverse := by
  have e : (runCalls cs ({}, h0)).1.observers.reverse = registrationOrder [] cs :=
    runCalls_observers cs ({}, h0)
  rw [← e, List.reverse_reverse]

/-! ## The claims -/

/-- C1 (fan-out completeness). For every station `ws`, every sequence `regs` of
registrations made on it and every heap, one call of `notifyObserver` performs
one `update` per entry of the notification list, front to back, each on the heap
the one before left, and nothing else. Every invocation writes the text its
class computes from the station into the observer it goes through and is
logged. So after the call every registered observer holds that text, every
other observer holds what it held, and the log has grown by the list itself:
`N = |observers| + |regs|` invocations, one per registration of a pointer,
duplicates counted. -/
theorem fanout_complete (ws : WeatherStation) (regs : List ObserverPtr) (h : Heap) :
    (ws.registerMultipleObserver regs).notifyObserver h =
        (ws.registerMultipleObserver regs).observers.foldl
          (fun h1 obs => obs.update (ws.registerMultipleObserver regs) h1) h ∧
      (∀ (obs : ObserverPtr) (h1 : Heap),
        (obs.update (ws.registerMultipleObserver regs) h1).derived obs =
            obs.rule (ws.registerMultipleObserver regs) ∧
          (obs.update (ws.registerMultipleObserver regs) h1).updates = h1.updates ++ [obs] ∧
          ∀ y : ObserverPtr, y ≠ obs →
            (obs.update (ws.registerMultipleObserver regs) h1).derived y = h1.derived y) ∧
      (∀ x : ObserverPtr, x ∈ (ws.registerMultipleObserver regs).observers →
        ((ws.registerMultipleObserver regs).notifyObserver h).derived x =
          x.rule (ws.registerMultipleObserver regs)) ∧
      (∀ x : ObserverPtr, x ∉ (ws.registerMultipleObserver regs).observers →
        ((ws.registerMultipleObserver regs).notifyObserver h).derived x = h.derived x) ∧
      ((ws.registerMultipleObserver regs).notifyObserver h).updates =
        h.updates ++ (ws.registerMultipleObserver regs).observers ∧
      (ws.registerMultipleObserver regs).observers.length =
        ws.observers.length + regs.length ∧
      ∀ x : ObserverPtr,
        ((ws.registerMultipleObserver regs).notifyObserver h).updates.count x =
          h.updates.count x + ws.observers.count x + regs.count x := by
  have hlog := notify_updates (ws.registerMultipleObserver regs).observers
    (ws.registerMultipleObserver regs) h
  refine ⟨rfl, ?_, ?_, ?_, hlog, ?_, ?_⟩
  · intro obs h1
    exact ⟨update_derived_self obs _ h1, update_updates obs _ h1,
      fun y hy => update_derived_other obs y _ h1 hy⟩
  · intro x hx
    exact notify_derived_mem _ _ h x hx
  · intro x hx
    exact notify_derived_not_mem _ _ h x hx
  · rw [registerMultipleObserver_observers]
    simp [Nat.add_comm]
  · intro x
    rw [WeatherStation.notifyObserver, hlog, registerMultipleObserver_observers]
    simp only [List.count_append, List.count_reverse]
    omega

/-- C2 (removal correctness). For every station, every observer pointer `x` and
every sequence `regs` of earlier registrations (holding `x` any number of times),
after `removeObserver (x)` the notification list has no occurrence of `x`; a
following `notifyObserver` invokes `update` through `x` zero times and leaves the
text held by `x` as it was. -/
theorem removal_correct (ws : WeatherStation) (regs : List ObserverPtr) (x : ObserverPtr)
    (h : Heap) :
    x ∉ ((ws.registerMultipleObserver regs).removeObserver x).observers ∧
      ((((ws.registerMultipleObserver regs).removeObserver x).notifyObserver h).updates.count x =
        h.updates.count x) ∧
      (((ws.registerMultipleObserver regs).removeObserver x).notifyObserver h).derived x =
        h.derived x := by
  have hx : x ∉ ((ws.registerMultipleObserver regs).removeObserver x).observers := by
    rw [removeObserver_observers]
    simp
  refine ⟨hx, ?_, ?_⟩
  · rw [WeatherStation.notifyObserver, notify_updates, List.count_append,
      List.count_eq_zero_of_not_mem hx]
    rfl
  · exact notify_derived_not_mem _ _ h x hx

/-- C3 (read-after-write ordering). For every station, value `v` and heap, and
every observer pointer in the notification list: when `setHumidity (v)` returns,
the station reads `v` and the observer holds the text its `update` computes
from the station after the write; likewise for `setTemperature` and
`setPressure`. Nothing is assumed on `v`, which may be the value already
stored. -/
theorem read_after_write (ws : WeatherStation) (v : Double) (h : Heap) (obs : ObserverPtr)
    (hobs : obs ∈ ws.observers) :
    ((ws.setHumidity v h).1.getHumidity = v ∧
        (ws.setHumidity v h).2.derived obs = obs.rule { ws with humidity := v }) ∧
      ((ws.setTemperature v h).1.getTemperature = v ∧
        (ws.setTemperature v h).2.derived obs = obs.rule { ws with temperature := v }) ∧
      ((ws.setPressure v h).1.getPressure = v ∧
        (ws.setPressure v h).2.derived obs = obs.rule { ws with pressure := v }) := by
  refine ⟨⟨rfl, ?_⟩, ⟨rfl, ?_⟩, ⟨rfl, ?_⟩⟩
  · exact notify_derived_mem _ _ h obs hobs
  · exact notify_derived_mem _ _ h obs hobs
  · exact notify_derived_mem _ _ h obs hobs

/-- C3, at a station with two registered observers and the value it already
stores. -/
theorem read_after_write_witness :
    ObserverPtr.forecast 0 ∈
        ({ observers := [.statistics 0, .forecast 0] } : WeatherStation).observers ∧
      (({ observers := [.statistics 0, .forecast 0] } : WeatherStation).setPressure
          (Double.ofNat 0) Heap.fresh).2.derived (.forecast 0) =
        (ObserverPtr.forecast 0).rule
          { ({ observers := [.statistics 0, .forecast 0] } : WeatherStation) with
            pressure := Double.ofNat 0 } :=
  ⟨by decide,
    (read_after_write { observers := [.statistics 0, .forecast 0] } (Double.ofNat 0) Heap.fresh
      (.forecast 0) (by decide)).2.2.2⟩

/-- C4 (forecast rule). For every reading, `ForecastObserver::update` stores
"Lluvia" exactly when `humidity > 0.95` and `pressure > 1` both hold, as `>` of
`double`, and "Libre" exactly when they do not. For a humidity the machine can
hold, that is exactly when the humidity exceeds 95/100 and the pressure exceeds
1 as real numbers, both strictly. The four rows of the table: (0.90, 2) and
(0.99, 0.5) and (0.96, 1.0) give "Libre", (0.99, 2) gives "Lluvia", whatever the
temperature and the registered observers. -/
theorem forecast_rule (self : ForecastObserver) (ws : WeatherStation)
    (l : List ObserverPtr) (t : Double) :
    ((self.update ws).getForecast = "Lluvia" ↔
        (Double.gt ws.getHumidity (Double.lit 95 2) = true ∧
          Double.gt ws.getPressure (Double.ofNat 1) = true)) ∧
      ((self.update ws).getForecast = "Libre" ↔
        ¬ (Double.gt ws.getHumidity (Double.lit 95 2) = true ∧
          Double.gt ws.getPressure (Double.ofNat 1) = true)) ∧
      (ws.getHumidity.machine = true →
        ((self.update ws).getForecast = "Lluvia" ↔
          (ws.getHumidity.exceeds 95 100 = true ∧ ws.getPressure.exceeds 1 1 = true))) ∧
      (self.update
          { observers := l, humidity := Double.lit 90 2, temperature := t,
            pressure := Double.ofNat 2 }).getForecast = "Libre" ∧
      (self.update
          { observers := l, humidity := Double.lit 99 2, temperature := t,
            pressure := Double.ofNat 2 }).getForecast = "Lluvia" ∧
      (self.update
          { observers := l, humidity := Double.lit 99 2, temperature := t,
            pressure := Double.lit 5 1 }).getForecast = "Libre" ∧
      (self.update
          { observers := l, humidity := Double.lit 96 2, temperature := t,
            pressure := Double.lit 10 1 }).getForecast = "Libre" := by
  have rain : (self.update ws).getForecast = "Lluvia" ↔
      (Double.gt ws.getHumidity (Double.lit 95 2) = true ∧
        Double.gt ws.getPressure (Double.ofNat 1) = true) := by
    unfold ForecastObserver.update
    by_cases c : (Double.gt ws.getHumidity (Double.lit 95 2) &&
        Double.gt ws.getPressure (Double.ofNat 1)) = true
    · rw [if_pos c]
      simpa [ForecastObserver.getForecast] using c
    · rw [if_neg c]
      simp only [Bool.and_eq_true] at c
      simp only [ForecastObserver.getForecast]
      constructor
      · intro e
        exact absurd e (by decide)
      · intro e
        exact absurd e c
  refine ⟨rain, ?_, ?_, ?_, ?_, ?_, ?_⟩
  · unfold ForecastObserver.update
    by_cases c : (Double.gt ws.getHumidity (Double.lit 95 2) &&
        Double.gt ws.getPressure (Double.ofNat 1)) = true
    · rw [if_pos c]
      simp only [Bool.and_eq_true] at c
      simp only [ForecastObserver.getForecast]
      constructor
      · intro e
        exact absurd e (by decide)
      · intro e
        exact absurd c e
    · rw [if_neg c]
      simpa [ForecastObserver.getForecast] using c
  · intro hm
    rw [rain, gt_lit095_iff _ hm, gt_one_iff]
  · simp only [ForecastObserver.update, WeatherStation.getHumidity, WeatherStation.getPressure,
      gt_090_095]
    rfl
  · simp only [ForecastObserver.update, WeatherStation.getHumidity, WeatherStation.getPressure,
      gt_099_095, gt_2_1]
    rfl
  · simp only [ForecastObserver.update, WeatherStation.getHumidity, WeatherStation.getPressure,
      gt_099_095, gt_05_1]
    rfl
  · simp only [ForecastObserver.update, WeatherStation.getHumidity, WeatherStation.getPressure,
      gt_096_095, gt_10_1]
    rfl

/-- C5, refuted as stated. For humidity 0.90, pressure 2 and temperature 10 the
text `CurrentObserver::update` stores is not the text of 1.69, and the number it
computes, `pressure*0.8 + humidity*0.1 + temperature*0.1`, is greater than 2. -/
theorem current_example_not_1_69 :
    (CurrentObserver.update {}
        { humidity := Double.lit 90 2, pressure := Double.ofNat 2,
          temperature := Double.ofNat 10 }).getCurrent ≠ Double.to_string (Double.lit 169 2) ∧
      Double.exceeds
        (Double.add (Double.add (Double.mul (Double.ofNat 2) (Double.lit 8 1))
          (Double.mul (Double.lit 90 2) (Double.lit 1 1)))
          (Double.mul (Double.ofNat 10) (Double.lit 1 1))) 2 1 = true := by
  refine ⟨?_, ?_⟩
  · simp only [CurrentObserver.update, CurrentObserver.getCurrent, WeatherStation.getHumidity,
      WeatherStation.getPressure, WeatherStation.getTemperature, current_090_2_10,
      to_string_169]
    decide
  · rw [current_value_090_2_10]
    decide

/-- C5, amended. For humidity 0.90, pressure 2 and temperature 10, whatever the
observer held before and whatever is registered, `CurrentObserver::update`
stores the text "2.690000", which is the text of 2.69: the number it computes,
1.6 + 0.09 + 1.0 in binary64, lies within 10^-15 of 2.69. -/
theorem current_example_2_69 (self : CurrentObserver) (l : List ObserverPtr) :
    (self.update
        { observers := l, humidity := Double.lit 90 2, pressure := Double.ofNat 2,
          temperature := Double.ofNat 10 }).getCurrent = "2.690000" ∧
      Double.to_string (Double.lit 269 2) = "2.690000" ∧
      Double.exceeds
        (Double.add (Double.add (Double.mul (Double.ofNat 2) (Double.lit 8 1))
          (Double.mul (Double.lit 90 2) (Double.lit 1 1)))
          (Double.mul (Double.ofNat 10) (Double.lit 1 1)))
        2689999999999999 1000000000000000 = true ∧
      Double.exceeds
        (Double.add (Double.add (Double.mul (Double.ofNat 2) (Double.lit 8 1))
          (Double.mul (Double.lit 90 2) (Double.lit 1 1)))
          (Double.mul (Double.ofNat 10) (Double.lit 1 1)))
        2690000000000001 1000000000000000 = false := by
  refine ⟨?_, by decide, ?_, ?_⟩
  · simp only [CurrentObserver.update, CurrentObserver.getCurrent, WeatherStation.getHumidity,
      WeatherStation.getPressure, WeatherStation.getTemperature, current_090_2_10]
  · rw [current_value_090_2_10]
    decide
  · rw [current_value_090_2_10]
    decide

/-- C6 (independent devices, the driver). Let `d1` and `d2` be two devices with
distinct observer objects, in any heap. When `main` returns, the observers of
`d1` hold what the readings (0.90, 10, 2) gave them, forecast "Libre", and the
observers of `d2` hold what the readings (0.99, 10, 2) give, forecast
"Lluvia". -/
theorem independent_devices (d1 d2 : DisplayDevice) (h0 : Heap)
    (hs : d1.statistics_obs ≠ d2.statistics_obs) (hc : d1.current_obs ≠ d2.current_obs)
    (hf : d1.forecast_obs ≠ d2.forecast_obs) :
    (((main d1 d2 h0).2.1.forecast d1.forecast_obs).getForecast = "Libre" ∧
        ((main d1 d2 h0).2.1.statistics d1.statistics_obs).getStatistics =
          "Hum:0.900000\nTemp:10.000000\nPres:2.000000" ∧
        ((main d1 d2 h0).2.1.current d1.current_obs).getCurrent = "2.690000") ∧
      (((main d1 d2 h0).2.1.forecast d2.forecast_obs).getForecast = "Lluvia" ∧
        ((main d1 d2 h0).2.1.statistics d2.statistics_obs).getStatistics =
          "Hum:0.990000\nTemp:10.000000\nPres:2.000000" ∧
        ((main d1 d2 h0).2.1.current d2.current_obs).getCurrent = "2.699000") := by
  -- the station and the heap at `return 0`, as four notifications
  have hfilter : (d2.getObserverList.reverse ++ d1.getObserverList.reverse).filter
      (fun o => decide (o ∉ d1.getObserverList)) = d2.getObserverList.reverse := by
    simp [DisplayDevice.getObserverList, List.filter, hs, hc, hf, Ne.symm hs, Ne.symm hc,
      Ne.symm hf]
  have hmain : (main d1 d2 h0).2.1 =
      WeatherStation.notifyObserver
        { observers := d2.getObserverList.reverse, humidity := Double.lit 99 2,
          temperature := Double.ofNat 10, pressure := Double.ofNat 2 }
        (WeatherStation.notifyObserver
          { observers := d2.getObserverList.reverse ++ d1.getObserverList.reverse,
            humidity := Double.lit 90 2, temperature := Double.ofNat 10,
            pressure := Double.ofNat 2 }
          (WeatherStation.notifyObserver
            { observers := d2.getObserverList.reverse ++ d1.getObserverList.reverse,
              humidity := Double.lit 90 2, temperature := Double.ofNat 0,
              pressure := Double.ofNat 2 }
            (WeatherStation.notifyObserver
              { observers := d2.getObserverList.reverse ++ d1.getObserverList.reverse,
                humidity := Double.lit 90 2, temperature := Double.ofNat 0,
                pressure := Double.ofNat 0 } h0))) := by
    simp only [main, WeatherStation.setHumidity, WeatherStation.setPressure,
      WeatherStation.setTemperature, registerMultipleObserver_eq, removeMultipleObserver_eq,
      List.append_nil, hfilter]
  -- an observer of `d1` keeps what the third setter gave it, one of `d2` gets the last values
  have old : ∀ x ∈ d1.getObserverList, (main d1 d2 h0).2.1.derived x =
      x.rule { observers := d2.getObserverList.reverse ++ d1.getObserverList.reverse,
               humidity := Double.lit 90 2, temperature := Double.ofNat 10,
               pressure := Double.ofNat 2 } := by
    intro x hx
    have hx4 : x ∉ d2.getObserverList.reverse := by
      simp only [DisplayDevice.getObserverList, List.mem_cons, List.mem_singleton,
        List.not_mem_nil, or_false, List.mem_reverse] at hx ⊢
      rcases hx with e | e | e <;> simp [e, hs, hc, hf]
    have hx3 : x ∈ d2.getObserverList.reverse ++ d1.getObserverList.reverse := by
      simp [hx]
    rw [hmain]
    unfold WeatherStation.notifyObserver
    rw [notify_derived_not_mem _ _ _ x hx4, notify_derived_mem _ _ _ x hx3]
  have new : ∀ x ∈ d2.getObserverList, (main d1 d2 h0).2.1.derived x =
      x.rule { observers := d2.getObserverList.reverse,
               humidity := Double.lit 99 2, temperature := Double.ofNat 10,
               pressure := Double.ofNat 2 } := by
    intro x hx
    have hx4 : x ∈ d2.getObserverList.reverse := by simp [hx]
    rw [hmain]
    unfold WeatherStation.notifyObserver
    rw [notify_derived_mem _ _ _ x hx4]
  have f1 := old (.forecast d1.forecast_obs) (by simp [DisplayDevice.getObserverList])
  have s1 := old (.statistics d1.statistics_obs) (by simp [DisplayDevice.getObserverList])
  have c1 := old (.current d1.current_obs) (by simp [DisplayDevice.getObserverList])
  have f2 := new (.forecast d2.forecast_obs) (by simp [DisplayDevice.getObserverList])
  have s2 := new (.statistics d2.statistics_obs) (by simp [DisplayDevice.getObserverList])
  have c2 := new (.current d2.current_obs) (by simp [DisplayDevice.getObserverList])
  simp only [Heap.derived] at f1 s1 c1 f2 s2 c2
  rw [f1, s1, c1, f2, s2, c2]
  simp only [ObserverPtr.rule, ForecastObserver.update, StatisticsObserver.update,
    CurrentObserver.update, WeatherStation.getHumidity, WeatherStation.getPressure,
    WeatherStation.getTemperature, ForecastObserver.getForecast,
    StatisticsObserver.getStatistics, CurrentObserver.getCurrent, gt_090_095, gt_099_095,
    gt_2_1, to_string_090, to_string_099, to_string_10, to_string_2, current_090_2_10,
    current_099_2_10]
  decide

/-- C6, at the first two devices of a fresh heap. -/
theorem independent_devices_witness :
    ((main ⟨0, 0, 0⟩ ⟨1, 1, 1⟩ Heap.fresh).2.1.forecast 0).getForecast = "Libre" ∧
      ((main ⟨0, 0, 0⟩ ⟨1, 1, 1⟩ Heap.fresh).2.1.forecast 1).getForecast = "Lluvia" :=
  ⟨(independent_devices ⟨0, 0, 0⟩ ⟨1, 1, 1⟩ Heap.fresh (by decide) (by decide)
      (by decide)).1.1,
    (independent_devices ⟨0, 0, 0⟩ ⟨1, 1, 1⟩ Heap.fresh (by decide) (by decide)
      (by decide)).2.1⟩

/-- C7 (identity-stable accessor). For every device, `getObserverList` returns
three pointers, to the statistics, the current and the forecast observer of the
device, in that order; it reads nothing but the three members, so every call
returns the same pointers. Registering the list of one call on any station and
removing the list of another call leaves no observer of the device in the
notification list, and leaves the other entries as they were. -/
theorem observer_list_stable (d : DisplayDevice) (ws : WeatherStation) :
    d.getObserverList =
        [.statistics d.statistics_obs, .current d.current_obs, .forecast d.forecast_obs] ∧
      d.getObserverList.length = 3 ∧
      (∀ x : ObserverPtr, x ∈ d.getObserverList →
        x ∉ ((ws.registerMultipleObserver d.getObserverList).removeMultipleObserver
          d.getObserverList).observers) ∧
      ((ws.registerMultipleObserver d.getObserverList).removeMultipleObserver
          d.getObserverList).observers =
        ws.observers.filter (fun o => decide (o ∉ d.getObserverList)) := by
  refine ⟨rfl, rfl, ?_, ?_⟩
  · intro x hx hmem
    rw [removeMultipleObserver_observers] at hmem
    have := (List.mem_filter.mp hmem).2
    simp [hx] at this
  · rw [removeMultipleObserver_observers, registerMultipleObserver_observers, List.filter_append]
    have hnil : d.getObserverList.reverse.filter (fun o => decide (o ∉ d.getObserverList)) = [] := by
      rw [List.filter_eq_nil_iff]
      intro a ha
      simpa using ha
    rw [hnil, List.nil_append]

/-- C8 (statistics formatting). For every reading, `StatisticsObserver::update`
stores "Hum:", the text of the humidity, a line break, "Temp:", the text of the
temperature, a line break, "Pres:" and the text of the pressure; for humidity
0.90, temperature 10 and pressure 2 that is the three lines `Hum:0.900000`,
`Temp:10.000000`, `Pres:2.000000`. -/
theorem statistics_format (self : StatisticsObserver) (ws : WeatherStation)
    (l : List ObserverPtr) :
    (self.update ws).getStatistics =
        "Hum:" ++ Double.to_string ws.getHumidity ++ "\nTemp:" ++
          Double.to_string ws.getTemperature ++ "\nPres:" ++ Double.to_string ws.getPressure ∧
      (self.update
          { observers := l, humidity := Double.lit 90 2, temperature := Double.ofNat 10,
            pressure := Double.ofNat 2 }).getStatistics =
        "Hum:0.900000\nTemp:10.000000\nPres:2.000000" := by
  refine ⟨rfl, ?_⟩
  simp only [StatisticsObserver.update, StatisticsObserver.getStatistics,
    WeatherStation.getHumidity, WeatherStation.getPressure, WeatherStation.getTemperature,
    to_string_090, to_string_10, to_string_2]
  decide

/-- C9 (absent-observer removal). For every station and every observer pointer
`x` that does not occur in its notification list, `removeObserver (x)` returns
the station as it was: same list, same order, same readings. The operation is
total and signals nothing. -/
theorem remove_absent_noop (ws : WeatherStation) (x : ObserverPtr) (hx : x ∉ ws.observers) :
    ws.removeObserver x = ws := by
  have hfil : ws.observers.filter (fun o => o != x) = ws.observers := by
    rw [List.filter_eq_self]
    intro a ha
    have hne : a ≠ x := fun e => hx (e ▸ ha)
    simpa using hne
  simp only [WeatherStation.removeObserver, SubjectInterface.removeObserver, hfil]

/-- C9, at a station with two observers and readings 0.90, 10, 2, for a third
observer. -/
theorem remove_absent_noop_witness :
    ObserverPtr.forecast 7 ∉
        ({ observers := [.statistics 0, .forecast 0], humidity := Double.lit 90 2,
           temperature := Double.ofNat 10, pressure := Double.ofNat 2 } :
          WeatherStation).observers ∧
      ({ observers := [.statistics 0, .forecast 0], humidity := Double.lit 90 2,
         temperature := Double.ofNat 10, pressure := Double.ofNat 2 } :
        WeatherStation).removeObserver (.forecast 7) =
        { observers := [.statistics 0, .forecast 0], humidity := Double.lit 90 2,
          temperature := Double.ofNat 10, pressure := Double.ofNat 2 } :=
  ⟨by decide, remove_absent_noop _ _ (by decide)⟩

/-- C10 (bulk registration). For every station and every list of observer
pointers, empty or with repeats, `registerMultipleObserver` returns the station
that calling `registerObserver` on the elements one after the other, first to
last, returns; its notification list is the reversed argument in front of the
old list. -/
theorem register_multiple_refines (ws : WeatherStation) (l : List ObserverPtr) :
    ws.registerMultipleObserver l = registerObserverEach ws l ∧
      (ws.registerMultipleObserver l).observers = l.reverse ++ ws.observers := by
  refine ⟨?_, registerMultipleObserver_observers l ws⟩
  induction l generalizing ws with
  | nil => rfl
  | cons o os ih =>
    have step : (ws.registerMultipleObserver (o :: os)) =
        (ws.registerObserver o).registerMultipleObserver os := rfl
    rw [step, ih]
    rfl

/-- C11, refuted as stated. For pressure 100000000001 and humidity and
temperature 0, the value of `pressure*0.8 + humidity*0.1 + temperature*0.1` is
exactly 80000000000.8, whose text is 80000000000.800000. `update` stores
"80000000000.800003": the number it computes is a `double` and is greater than
80000000000.8, by less than 2 ^ -17, half the distance between neighbouring
values of `double` there. -/
theorem current_text_not_exact :
    (CurrentObserver.update {}
        { humidity := Double.ofNat 0, temperature := Double.ofNat 0,
          pressure := Double.ofNat 100000000001 }).getCurrent = "80000000000.800003" ∧
      (CurrentObserver.update {}
        { humidity := Double.ofNat 0, temperature := Double.ofNat 0,
          pressure := Double.ofNat 100000000001 }).getCurrent ≠ "80000000000.800000" ∧
      Double.exceeds
        (Double.add (Double.add (Double.mul (Double.ofNat 100000000001) (Double.lit 8 1))
          (Double.mul (Double.ofNat 0) (Double.lit 1 1)))
          (Double.mul (Double.ofNat 0) (Double.lit 1 1))) 800000000008 10 = true ∧
      Double.exceeds
        (Double.add (Double.add (Double.mul (Double.ofNat 100000000001) (Double.lit 8 1))
          (Double.mul (Double.ofNat 0) (Double.lit 1 1)))
          (Double.mul (Double.ofNat 0) (Double.lit 1 1)))
        104857600001048586 1310720 = false := by
  have e : (CurrentObserver.update {}
      { humidity := Double.ofNat 0, temperature := Double.ofNat 0,
        pressure := Double.ofNat 100000000001 }).getCurrent = "80000000000.800003" := by
    simp only [CurrentObserver.update, CurrentObserver.getCurrent, WeatherStation.getHumidity,
      WeatherStation.getPressure, WeatherStation.getTemperature, current_value_large,
      to_string_large]
  refine ⟨e, ?_, ?_, ?_⟩
  · rw [e]
    decide
  · rw [current_value_large]
    decide
  · rw [current_value_large]
    decide

/-- C11, amended. For every reading and whatever the observer held before,
`CurrentObserver::update` stores the text that `std::to_string` gives for
`pressure*0.8 + humidity*0.1 + temperature*0.1` evaluated as the source does:
`double` products and sums, left to right, each rounded to the nearest
`double`. The stored text depends on the three readings only, not on the
registered observers, and `getCurrent` returns the member as it is. For
humidity 0.99, temperature 10 and pressure 2 the text is "2.699000"; for NaN
readings of opposite sign the text is that of the right-hand NaN of the sum. -/
theorem current_formula (self other : CurrentObserver) (ws : WeatherStation)
    (l : List ObserverPtr) (text : String) :
    (self.update ws).getCurrent =
        Double.to_string
          (Double.add
            (Double.add (Double.mul ws.getPressure (Double.lit 8 1))
              (Double.mul ws.getHumidity (Double.lit 1 1)))
            (Double.mul ws.getTemperature (Double.lit 1 1))) ∧
      (self.update ws).getCurrent = (other.update { ws with observers := l }).getCurrent ∧
      (self.update ws).getCurrent = (self.update ws).current ∧
      CurrentObserver.getCurrent { current := text } = text ∧
      (self.update
          { observers := l, humidity := Double.lit 99 2, temperature := Double.ofNat 10,
            pressure := Double.ofNat 2 }).getCurrent = "2.699000" ∧
      ((self.update
          { observers := l, humidity := .nan false, temperature := Double.ofNat 0,
            pressure := .nan true }).getCurrent = "nan" ∧
        (self.update
          { observers := l, humidity := .nan true, temperature := Double.ofNat 0,
            pressure := .nan false }).getCurrent = "-nan" ∧
        (self.update
          { observers := l, humidity := Double.ofNat 0, temperature := .nan true,
            pressure := .nan false }).getCurrent = "-nan" ∧
        (self.update
          { observers := l, humidity := Double.ofNat 0, temperature := .nan false,
            pressure := .nan true }).getCurrent = "nan") := by
  refine ⟨rfl, rfl, rfl, rfl, ?_, ?_, ?_, ?_, ?_⟩
  · simp only [CurrentObserver.update, CurrentObserver.getCurrent, WeatherStation.getHumidity,
      WeatherStation.getPressure, WeatherStation.getTemperature, current_099_2_10]
  · simp only [CurrentObserver.update, CurrentObserver.getCurrent, WeatherStation.getHumidity,
      WeatherStation.getPressure, WeatherStation.getTemperature, current_nan_h_pos_p_neg]
  · simp only [CurrentObserver.update, CurrentObserver.getCurrent, WeatherStation.getHumidity,
      WeatherStation.getPressure, WeatherStation.getTemperature, current_nan_h_neg_p_pos]
  · simp only [CurrentObserver.update, CurrentObserver.getCurrent, WeatherStation.getHumidity,
      WeatherStation.getPressure, WeatherStation.getTemperature, current_nan_t_neg_p_pos]
  · simp only [CurrentObserver.update, CurrentObserver.getCurrent, WeatherStation.getHumidity,
      WeatherStation.getPressure, WeatherStation.getTemperature, current_nan_t_pos_p_neg]

/-- C12 (setter frame). For every station, value and heap: `setHumidity (v)`
leaves a station whose humidity is `v` and whose temperature, pressure and
notification list are those before the call; likewise `setTemperature` writes
the temperature alone and `setPressure` the pressure alone. -/
theorem setter_frame (ws : WeatherStation) (v : Double) (h : Heap) :
    ((ws.setHumidity v h).1.getHumidity = v ∧
        (ws.setHumidity v h).1.getTemperature = ws.getTemperature ∧
        (ws.setHumidity v h).1.getPressure = ws.getPressure ∧
        (ws.setHumidity v h).1.observers = ws.observers) ∧
      ((ws.setTemperature v h).1.getTemperature = v ∧
        (ws.setTemperature v h).1.getHumidity = ws.getHumidity ∧
        (ws.setTemperature v h).1.getPressure = ws.getPressure ∧
        (ws.setTemperature v h).1.observers = ws.observers) ∧
      ((ws.setPressure v h).1.getPressure = v ∧
        (ws.setPressure v h).1.getHumidity = ws.getHumidity ∧
        (ws.setPressure v h).1.getTemperature = ws.getTemperature ∧
        (ws.setPressure v h).1.observers = ws.observers) := by
  exact ⟨⟨rfl, rfl, rfl, rfl⟩, ⟨rfl, rfl, rfl, rfl⟩, ⟨rfl, rfl, rfl, rfl⟩⟩

/-- C13 (notification leaves the subject alone). For every station and heap, the
call `notifyObserver ()` returns with the station as it was: the three readings
and the notification list. What it changes in the heap is confined to the
observers in the list: the log grows by the list and the text of any observer
outside the list stays. With an empty list the call changes nothing at all:
the heap, log included, is the one before the call. -/
theorem notify_frame (ws : WeatherStation) (h : Heap) (hum temp pres : Double) :
    (Call.notifyObserver.run (ws, h)).1 = ws ∧
      (Call.notifyObserver.run (ws, h)).2.updates = h.updates ++ ws.observers ∧
      (∀ x : ObserverPtr, x ∉ ws.observers →
        (Call.notifyObserver.run (ws, h)).2.derived x = h.derived x) ∧
      Call.notifyObserver.run
          ({ observers := [], humidity := hum, temperature := temp, pressure := pres }, h) =
        ({ observers := [], humidity := hum, temperature := temp, pressure := pres }, h) := by
  refine ⟨rfl, ?_, ?_, rfl⟩
  · exact notify_updates ws.observers ws h
  · intro x hx
    exact notify_derived_not_mem ws.observers ws h x hx

/-- C14, refuted as stated. On a new station, `registerObserver (x)` called
twice leaves `x` twice in the notification list, and one `notifyObserver` then
invokes `update` through `x` twice. -/
theorem double_registration_notified_twice :
    (((runCalls [.registerObserver (.forecast 0), .registerObserver (.forecast 0)]
        ({}, Heap.fresh)).1.notifyObserver Heap.fresh).updates.count (.forecast 0)) = 2 := by
  decide

/-- C14, amended. For every sequence of calls on a new station and every heap,
one `notifyObserver` performs one `update` per registration in force, latest
first, each on the heap the one before left; so it invokes `update` through an
observer pointer once per registration of it made after its last removal, with
no condition on the sequence. When no pointer has two registrations in force,
no pointer is notified twice and the notification list has no duplicate. -/
theorem no_double_notification (cs : List Call) (h0 h : Heap) :
    (runCalls cs ({}, h0)).1.notifyObserver h =
        (registrationOrder [] cs).reverse.foldl
          (fun h1 obs => obs.update (runCalls cs ({}, h0)).1 h1) h ∧
      (∀ x : ObserverPtr,
        ((runCalls cs ({}, h0)).1.notifyObserver h).updates.count x =
          h.updates.count x + (registrationOrder [] cs).count x) ∧
      (∀ x : ObserverPtr, x ∈ registrationOrder [] cs →
        ((runCalls cs ({}, h0)).1.notifyObserver h).derived x =
          x.rule (runCalls cs ({}, h0)).1) ∧
      ((registrationOrder [] cs).Nodup →
        (∀ x : ObserverPtr,
          ((runCalls cs ({}, h0)).1.notifyObserver h).updates.count x ≤
            h.updates.count x + 1) ∧
        (runCalls cs ({}, h0)).1.observers.Nodup) := by
  have hcount : ∀ x : ObserverPtr,
      ((runCalls cs ({}, h0)).1.notifyObserver h).updates.count x =
        h.updates.count x + (registrationOrder [] cs).count x := by
    intro x
    rw [WeatherStation.notifyObserver, notify_updates, runCalls_fresh_observers,
      List.count_append, List.count_reverse]
  refine ⟨?_, hcount, ?_, ?_⟩
  · rw [WeatherStation.notifyObserver, runCalls_fresh_observers]
  · intro x hx
    apply notify_derived_mem
    rw [runCalls_fresh_observers]
    exact List.mem_reverse.mpr hx
  · intro hnd
    constructor
    · intro x
      rw [hcount x]
      have := List.nodup_iff_count_le_one.mp hnd x
      omega
    · rw [runCalls_fresh_observers]
      exact List.nodup_reverse.mpr hnd

/-- C14 amended, at a sequence that registers a pointer again after removing
it, and at one that registers it twice. -/
theorem no_double_notification_witness :
    ((registrationOrder []
        [.registerObserver (.forecast 0), .registerObserver (.statistics 0),
          .removeObserver (.forecast 0), .registerObserver (.forecast 0)]).Nodup ∧
      (runCalls
        [.registerObserver (.forecast 0), .registerObserver (.statistics 0),
          .removeObserver (.forecast 0), .registerObserver (.forecast 0)]
        ({}, Heap.fresh)).1.observers.Nodup) ∧
      ((runCalls [.registerObserver (.forecast 0), .registerObserver (.forecast 0)]
        ({}, Heap.fresh)).1.notifyObserver Heap.fresh).updates.count (.forecast 0) =
        Heap.fresh.updates.count (.forecast 0) +
          (registrationOrder []
            [.registerObserver (.forecast 0), .registerObserver (.forecast 0)]).count
            (.forecast 0) :=
  ⟨⟨by decide,
    ((no_double_notification
      [.registerObserver (.forecast 0), .registerObserver (.statistics 0),
        .removeObserver (.forecast 0), .registerObserver (.forecast 0)]
      Heap.fresh Heap.fresh).2.2.2 (by decide)).2⟩,
    (no_double_notification [.registerObserver (.forecast 0), .registerObserver (.forecast 0)]
      Heap.fresh Heap.fresh).2.1 (.forecast 0)⟩

/-- C15 (notification order). For every sequence of calls on a new station and
every heap, the notification list is the record of the registrations in force
read backwards, latest first, and `notifyObserver` performs its `update`
invocations in that order: the heap it leaves is the one obtained by invoking
`update` through the latest registration first and the oldest last, each on the
heap the one before left, so every registered observer holds the text computed
from the station and the log has grown by the record read backwards.
`registerObserver` puts the pointer in front of the list and `removeObserver`
keeps the other entries in their order. The order is a function of the calls
that register and remove: two sequences of calls that agree on those calls give
the same list, whatever the heaps, the setter calls and the values they
write. -/
theorem notification_order (cs : List Call) (h0 h1 h : Heap) (s : WeatherStation × Heap)
    (x : ObserverPtr) :
    (runCalls cs ({}, h0)).1.observers = (registrationOrder [] cs).reverse ∧
      (runCalls cs ({}, h0)).1.notifyObserver h =
        (registrationOrder [] cs).reverse.foldl
          (fun h2 obs => obs.update (runCalls cs ({}, h0)).1 h2) h ∧
      (∀ (obs : ObserverPtr) (h2 : Heap),
        (obs.update (runCalls cs ({}, h0)).1 h2).derived obs =
            obs.rule (runCalls cs ({}, h0)).1 ∧
          (obs.update (runCalls cs ({}, h0)).1 h2).updates = h2.updates ++ [obs]) ∧
      (∀ y : ObserverPtr, y ∈ registrationOrder [] cs →
        ((runCalls cs ({}, h0)).1.notifyObserver h).derived y =
          y.rule (runCalls cs ({}, h0)).1) ∧
      (∀ y : ObserverPtr, y ∉ registrationOrder [] cs →
        ((runCalls cs ({}, h0)).1.notifyObserver h).derived y = h.derived y) ∧
      ((runCalls cs ({}, h0)).1.notifyObserver h).updates =
        h.updates ++ (registrationOrder [] cs).reverse ∧
      (∀ cs2 : List Call,
        cs.filter Call.registersOrRemoves = cs2.filter Call.registersOrRemoves →
        (runCalls cs ({}, h0)).1.observers = (runCalls cs2 ({}, h1)).1.observers) ∧
      ((Call.registerObserver x).run s).1.observers = x :: s.1.observers ∧
      ((Call.removeObserver x).run s).1.observers = s.1.observers.filter (fun o => o != x) ∧
      (((Call.removeObserver x).run s).1.observers).Sublist s.1.observers := by
  refine ⟨runCalls_fresh_observers cs h0, ?_, ?_, ?_, ?_, ?_, ?_, rfl, rfl, ?_⟩
  · rw [WeatherStation.notifyObserver, runCalls_fresh_observers]
  · intro obs h2
    exact ⟨update_derived_self obs _ h2, update_updates obs _ h2⟩
  · intro y hy
    apply notify_derived_mem
    rw [runCalls_fresh_observers]
    exact List.mem_reverse.mpr hy
  · intro y hy
    apply notify_derived_not_mem
    rw [runCalls_fresh_observers]
    exact fun m => hy (List.mem_reverse.mp m)
  · rw [WeatherStation.notifyObserver, notify_updates, runCalls_fresh_observers]
  · intro cs2 e
    rw [runCalls_fresh_observers, runCalls_fresh_observers, ← registrationOrder_filter cs,
      ← registrationOrder_filter cs2, e]
  · exact List.filter_sublist _

/-- C16 (last notifier wins). Let the observer `o` be registered on the stations
`A` and `B`, with any readings, in any heap. After one of the three setters on
`A` and then one of the three setters on `B`, `o` holds the text its `update`
computes from `B` after the write; after a setter on `B` and then one on `A`,
the text computed from `A`. That text is a function of the three readings of
the station that notified last, not of its notification list. -/
theorem last_notifier_wins (A B : WeatherStation) (o : ObserverPtr) (va vb : Double) (h : Heap)
    (hA : o ∈ A.observers) (hB : o ∈ B.observers) :
    (∀ h1 : Heap,
        h1 ∈ [(A.setHumidity va h).2, (A.setTemperature va h).2, (A.setPressure va h).2] →
        (B.setHumidity vb h1).2.derived o = o.rule { B with humidity := vb } ∧
        (B.setTemperature vb h1).2.derived o = o.rule { B with temperature := vb } ∧
        (B.setPressure vb h1).2.derived o = o.rule { B with pressure := vb }) ∧
      (∀ h1 : Heap,
        h1 ∈ [(B.setHumidity vb h).2, (B.setTemperature vb h).2, (B.setPressure vb h).2] →
        (A.setHumidity va h1).2.derived o = o.rule { A with humidity := va } ∧
        (A.setTemperature va h1).2.derived o = o.rule { A with temperature := va } ∧
        (A.setPressure va h1).2.derived o = o.rule { A with pressure := va }) ∧
      (∀ l : List ObserverPtr, o.rule { B with observers := l } = o.rule B) ∧
      (∀ l : List ObserverPtr, o.rule { A with observers := l } = o.rule A) := by
  refine ⟨?_, ?_, ?_, ?_⟩
  · intro h1 _
    exact ⟨notify_derived_mem _ _ h1 o hB, notify_derived_mem _ _ h1 o hB,
      notify_derived_mem _ _ h1 o hB⟩
  · intro h1 _
    exact ⟨notify_derived_mem _ _ h1 o hA, notify_derived_mem _ _ h1 o hA,
      notify_derived_mem _ _ h1 o hA⟩
  · intro l
    cases o <;> rfl
  · intro l
    cases o <;> rfl

/-- C16, for a forecast observer shared by a station at (0.99, 0, 2) and a new
station: a humidity write on the first and then a pressure write on the
second. -/
theorem last_notifier_wins_witness :
    (ObserverPtr.forecast 0 ∈
        ({ observers := [.forecast 0], humidity := Double.lit 99 2,
           pressure := Double.ofNat 2 } : WeatherStation).observers ∧
      ObserverPtr.forecast 0 ∈ ({ observers := [.forecast 0] } : WeatherStation).observers) ∧
      (WeatherStation.setPressure { observers := [.forecast 0] } (Double.ofNat 2)
          (WeatherStation.setHumidity
            { observers := [.forecast 0], humidity := Double.lit 99 2,
              pressure := Double.ofNat 2 }
            (Double.lit 99 2) Heap.fresh).2).2.derived (.forecast 0) =
        (ObserverPtr.forecast 0).rule
          { ({ observers := [.forecast 0] } : WeatherStation) with
            pressure := Double.ofNat 2 } :=
  ⟨⟨by decide, by decide⟩,
    ((last_notifier_wins
      { observers := [.forecast 0], humidity := Double.lit 99 2, pressure := Double.ofNat 2 }
      { observers := [.forecast 0] } (.forecast 0) (Double.lit 99 2) (Double.ofNat 2)
      Heap.fresh (by decide) (by decide)).1 _ (List.mem_cons_self _ _)).2.2⟩

/-- C17 (no hysteresis). For every station and any two forecast observers,
whatever they hold, `update` leaves both with the same forecast; the forecast
is the same for any two stations with the same humidity and pressure; and a
second `update` from the same station changes nothing. -/
theorem no_hysteresis (s1 s2 : ForecastObserver) (ws ws2 : WeatherStation) :
    s1.update ws = s2.update ws ∧
      (ws.getHumidity = ws2.getHumidity → ws.getPressure = ws2.getPressure →
        s1.update ws = s2.update ws2) ∧
      (s1.update ws).update ws = s1.update ws := by
  refine ⟨rfl, ?_, rfl⟩
  intro hh hp
  simp only [ForecastObserver.update, hh, hp]

/-- C18 (bulk removal). For every station and every list `l` of observer
pointers, after `removeMultipleObserver (l)` no element of `l` is in the
notification list; the list is the old one without the elements of `l`, so a
pointer outside `l` occurs as often as before and the entries that stay keep
their order; the readings are untouched; and the station is the one that
calling `removeObserver` on the elements of `l`, first to last, returns. -/
theorem bulk_removal (ws : WeatherStation) (l : List ObserverPtr) :
    (∀ x : ObserverPtr, x ∈ l → x ∉ (ws.removeMultipleObserver l).observers) ∧
      (ws.removeMultipleObserver l).observers =
        ws.observers.filter (fun o => decide (o ∉ l)) ∧
      (∀ x : ObserverPtr, x ∉ l →
        (ws.removeMultipleObserver l).observers.count x = ws.observers.count x) ∧
      (ws.removeMultipleObserver l).observers.Sublist ws.observers ∧
      ((ws.removeMultipleObserver l).getHumidity = ws.getHumidity ∧
        (ws.removeMultipleObserver l).getTemperature = ws.getTemperature ∧
        (ws.removeMultipleObserver l).getPressure = ws.getPressure) ∧
      ws.removeMultipleObserver l = removeObserverEach ws l := by
  refine ⟨?_, removeMultipleObserver_observers l ws, ?_, ?_, ?_, ?_⟩
  · intro x hx hmem
    rw [removeMultipleObserver_observers] at hmem
    have := (List.mem_filter.mp hmem).2
    simp [hx] at this
  · intro x hx
    rw [removeMultipleObserver_observers, List.count_filter]
    simpa using hx
  · rw [removeMultipleObserver_observers]
    exact List.filter_sublist _
  · rw [removeMultipleObserver_eq]
    exact ⟨rfl, rfl, rfl⟩
  · induction l generalizing ws with
    | nil => rfl
    | cons o os ih =>
      have step : (ws.removeMultipleObserver (o :: os)) =
          (ws.removeObserver o).removeMultipleObserver os := rfl
      rw [step, ih]
      rfl

/-- C19 (register and remove, round trip). For every station and every observer
pointer `x` that is not in its notification list, `registerObserver (x)` and
then `removeObserver (x)` return the station as it was, list and order
included. For every device none of whose three observers is in the list,
`registerMultipleObserver` and then `removeMultipleObserver` of its observer
list return the station as it was. -/
theorem register_remove_round_trip (ws : WeatherStation) (x : ObserverPtr) (d : DisplayDevice)
    (hx : x ∉ ws.observers) (hd : ∀ y : ObserverPtr, y ∈ d.getObserverList → y ∉ ws.observers) :
    (ws.registerObserver x).removeObserver x = ws ∧
      (ws.registerMultipleObserver d.getObserverList).removeMultipleObserver
        d.getObserverList = ws := by
  constructor
  · have hfil : (x :: ws.observers).filter (fun o => o != x) = ws.observers := by
      rw [List.filter_cons_of_neg (by simp), List.filter_eq_self]
      intro a ha
      have hne : a ≠ x := fun e => hx (e ▸ ha)
      simpa using hne
    simp only [WeatherStation.removeObserver, SubjectInterface.removeObserver,
      WeatherStation.registerObserver, SubjectInterface.registerObserver, hfil]
  · have hfil : (d.getObserverList.reverse ++ ws.observers).filter
        (fun o => decide (o ∉ d.getObserverList)) = ws.observers := by
      rw [List.filter_append]
      have hnil : d.getObserverList.reverse.filter
          (fun o => decide (o ∉ d.getObserverList)) = [] := by
        rw [List.filter_eq_nil_iff]
        intro a ha
        simpa using ha
      rw [hnil, List.nil_append, List.filter_eq_self]
      intro a ha
      have hna : a ∉ d.getObserverList := fun m => hd a m ha
      simpa using hna
    rw [registerMultipleObserver_eq, removeMultipleObserver_eq]
    simp only [hfil]

/-- C19, at a station with one observer and readings 0.90, 10, 2, for a forecast
observer and a device none of which is registered. -/
theorem register_remove_round_trip_witness :
    (WeatherStation.removeObserver
          (WeatherStation.registerObserver
            { observers := [.statistics 0], humidity := Double.lit 90 2,
              temperature := Double.ofNat 10, pressure := Double.ofNat 2 }
            (.forecast 7))
          (.forecast 7) =
        { observers := [.statistics 0], humidity := Double.lit 90 2,
          temperature := Double.ofNat 10, pressure := Double.ofNat 2 }) ∧
      WeatherStation.removeMultipleObserver
          (WeatherStation.registerMultipleObserver
            { observers := [.statistics 0], humidity := Double.lit 90 2,
              temperature := Double.ofNat 10, pressure := Double.ofNat 2 }
            (DisplayDevice.getObserverList ⟨1, 1, 1⟩))
          (DisplayDevice.getObserverList ⟨1, 1, 1⟩) =
        { observers := [.statistics 0], humidity := Double.lit 90 2,
          temperature := Double.ofNat 10, pressure := Double.ofNat 2 } :=
  register_remove_round_trip
    { observers := [.statistics 0], humidity := Double.lit 90 2,
      temperature := Double.ofNat 10, pressure := Double.ofNat 2 }
    (.forecast 7) ⟨1, 1, 1⟩ (by decide) (by decide)

/-- C20 (registration and removal never notify). For every station and heap, each
of `registerObserver`, `registerMultipleObserver`, `removeObserver` and
`removeMultipleObserver` returns with the heap as it was, so with the text of
every observer and the log of `update` invocations unchanged, and with the
three readings unchanged. So an observer that is registered after a setter ran
still holds what it held before, the empty text if it is new, and holds the
text computed from the station only when the next setter returns. -/
theorem registration_never_notifies (ws : WeatherStation) (h : Heap) (x : ObserverPtr)
    (l : List ObserverPtr) (v v2 : Double) :
    (∀ c : Call,
        c ∈ [Call.registerObserver x, Call.registerMultipleObserver l, Call.removeObserver x,
          Call.removeMultipleObserver l] →
        (c.run (ws, h)).2 = h ∧ (c.run (ws, h)).1.getHumidity = ws.getHumidity ∧
          (c.run (ws, h)).1.getTemperature = ws.getTemperature ∧
          (c.run (ws, h)).1.getPressure = ws.getPressure) ∧
      (x ∉ ws.observers →
        (runCalls [.setHumidity v, .registerObserver x] (ws, h)).2.derived x = h.derived x ∧
        (runCalls [.setHumidity v, .registerObserver x, .setPressure v2] (ws, h)).2.derived x =
          x.rule { ws with humidity := v, pressure := v2 }) ∧
      Heap.fresh.derived x = "" := by
  refine ⟨?_, ?_, ?_⟩
  · intro c hc
    simp only [List.mem_cons, List.mem_singleton, List.not_mem_nil, or_false] at hc
    rcases hc with rfl | rfl | rfl | rfl
    · exact ⟨rfl, rfl, rfl, rfl⟩
    · have e : ((Call.registerMultipleObserver l).run (ws, h)).1 =
          { ws with observers := l.reverse ++ ws.observers } :=
        registerMultipleObserver_eq l ws
      rw [e]
      exact ⟨rfl, rfl, rfl, rfl⟩
    · exact ⟨rfl, rfl, rfl, rfl⟩
    · have e : ((Call.removeMultipleObserver l).run (ws, h)).1 =
          { ws with observers := ws.observers.filter (fun o => decide (o ∉ l)) } :=
        removeMultipleObserver_eq l ws
      rw [e]
      exact ⟨rfl, rfl, rfl, rfl⟩
  · intro hx
    constructor
    · exact notify_derived_not_mem ws.observers _ h x hx
    · have hmem : x ∈ x :: ws.observers := List.mem_cons_self _ _
      have e := notify_derived_mem (x :: ws.observers)
        { observers := x :: ws.observers, humidity := v, temperature := ws.temperature,
          pressure := v2 }
        (WeatherStation.notifyObserver { ws with humidity := v } h) x hmem
      have r : x.rule
          { observers := x :: ws.observers, humidity := v, temperature := ws.temperature,
            pressure := v2 } = x.rule { ws with humidity := v, pressure := v2 } := by
        cases x <;> rfl
      rw [← r, ← e]
      rfl
  · cases x <;> rfl

end Stonks
